import Mathlib

set_option autoImplicit false

namespace Lodestone

/-!
Shallow embedding of the Lodestone backend instance-lifecycle core
(handlers/instance.rs, implementations/minecraft/mod.rs, traits/mod.rs),
with theorems checking the natural-language specification against it.
-/

/-! ## Backup scheduler (implementations/minecraft/mod.rs, MinecraftInstance::restore)

The backup task consumes `BackupInstruction`s from an unbounded queue while a
1-second timer ticks, via `tokio::select!`.  We embed the loop body as a
transition function over the observable scheduler configuration.  An input
trace interleaves delivered instructions with elapsed 1-second ticks; a tick
carries the value of the shared lifecycle-state check `*state == Running` at
that moment.  While the task sits in the inner `Pause` wait loop it is blocked
in `recv`, so elapsing ticks have no effect there.
-/

/-- Backup instructions, from `enum BackupInstruction` in minecraft/mod.rs. -/
inductive BInstr where
  | setPeriod : Option Nat → BInstr
  | backupNow : BInstr
  | pause : BInstr
  | resume : BInstr
  deriving DecidableEq, Repr

/-- One observable input to the scheduler loop: a delivered instruction, or a
1-second timer tick carrying whether the lifecycle state reads `Running`. -/
inductive SEv where
  | instr : BInstr → SEv
  | tick : Bool → SEv
  deriving DecidableEq, Repr

/-- Observable configuration of the backup task: whether it is inside the
inner pause-wait loop, the current `backup_period`, the tick `counter`, and
how many backup copies have fired so far. -/
structure SchedCfg where
  paused : Bool
  period : Option Nat
  counter : Nat
  backups : Nat
  deriving DecidableEq, Repr

/-- One iteration of the scheduler loop body (minecraft/mod.rs lines 526-567).
While paused (inside the inner wait loop) only a `Resume` instruction has an
effect; otherwise `SetPeriod` replaces the period (leaving `counter` as is),
`BackupNow` fires a backup, `Pause` enters the wait loop, and a tick, when a
period is configured and the state reads `Running`, increments `counter` and
fires a backup (resetting `counter`) once `counter` reaches the period. -/
def schedProcEv : SchedCfg → SEv → SchedCfg
  | ⟨true, per, cnt, b⟩, SEv.instr BInstr.resume => ⟨false, per, cnt, b⟩
  | ⟨true, per, cnt, b⟩, SEv.instr (BInstr.setPeriod _) => ⟨true, per, cnt, b⟩
  | ⟨true, per, cnt, b⟩, SEv.instr BInstr.backupNow => ⟨true, per, cnt, b⟩
  | ⟨true, per, cnt, b⟩, SEv.instr BInstr.pause => ⟨true, per, cnt, b⟩
  | ⟨true, per, cnt, b⟩, SEv.tick _ => ⟨true, per, cnt, b⟩
  | ⟨false, _, cnt, b⟩, SEv.instr (BInstr.setPeriod p) => ⟨false, p, cnt, b⟩
  | ⟨false, per, cnt, b⟩, SEv.instr BInstr.backupNow => ⟨false, per, cnt, b + 1⟩
  | ⟨false, per, cnt, b⟩, SEv.instr BInstr.pause => ⟨true, per, cnt, b⟩
  | ⟨false, per, cnt, b⟩, SEv.instr BInstr.resume => ⟨false, per, cnt, b⟩
  | ⟨false, none, cnt, b⟩, SEv.tick _ => ⟨false, none, cnt, b⟩
  | ⟨false, some p, cnt, b⟩, SEv.tick false => ⟨false, some p, cnt, b⟩
  | ⟨false, some p, cnt, b⟩, SEv.tick true =>
    if p ≤ cnt + 1 then ⟨false, some p, 0, b + 1⟩ else ⟨false, some p, cnt + 1, b⟩

/-- Run the scheduler loop over a whole input trace. -/
def schedProc (c : SchedCfg) (tr : List SEv) : SchedCfg :=
  tr.foldl schedProcEv c

/-! ### Termination machine for the backup task

For the termination claim we also embed the queue-closure behaviour as a step
machine.  The remaining trace plays the role of the queue: an exhausted trace
is a closed queue (`recv` returns `None`).  In the main loop, `None` hits the
`break` (the task exits); in the inner pause-wait loop, `None` falls into the
`else continue` branch, so the machine stays in the wait loop. -/

/-- Control position of the backup task. -/
inductive SchedPhase where
  | main : SchedPhase
  | pausedWait : SchedPhase
  | exited : SchedPhase
  deriving DecidableEq, Repr

/-- Full machine state of the backup task: control position, scheduler
configuration, remaining input trace (empty = queue closed), backups fired. -/
structure SchedM where
  phase : SchedPhase
  period : Option Nat
  counter : Nat
  queue : List SEv
  backups : Nat
  deriving DecidableEq, Repr

/-- One step of the backup task, including queue-closure behaviour.  With the
queue closed, the main loop breaks (exits), while the inner pause-wait loop
receives `None` and continues, staying where it is. -/
def schedStep (m : SchedM) : SchedM :=
  match m.phase, m.queue with
  | SchedPhase.exited, _ => m
  | SchedPhase.main, [] => { m with phase := SchedPhase.exited }
  | SchedPhase.main, ev :: rest =>
    match ev with
    | SEv.instr (BInstr.setPeriod p) => { m with period := p, queue := rest }
    | SEv.instr BInstr.backupNow => { m with backups := m.backups + 1, queue := rest }
    | SEv.instr BInstr.pause => { m with phase := SchedPhase.pausedWait, queue := rest }
    | SEv.instr BInstr.resume => { m with queue := rest }
    | SEv.tick running =>
      match m.period with
      | none => { m with queue := rest }
      | some p =>
        if running then
          if p ≤ m.counter + 1 then
            { m with counter := 0, backups := m.backups + 1, queue := rest }
          else
            { m with counter := m.counter + 1, queue := rest }
        else { m with queue := rest }
  | SchedPhase.pausedWait, [] => m
  | SchedPhase.pausedWait, ev :: rest =>
    match ev with
    | SEv.instr BInstr.resume => { m with phase := SchedPhase.main, queue := rest }
    | _ => { m with queue := rest }

/-! ## Instance identity collision check (handlers/instance.rs lines 77-87)

`create_minecraft_instance` generates a candidate `InstanceUuid` and then makes
a single pass over the keys of the instance registry: for each key whose string
form has at least eight characters, it compares that key's first eight
characters with the first eight characters of the current candidate's
identifier; on a match it replaces the candidate with a freshly generated
identifier and continues the pass.  We embed the generator
(`InstanceUuid::default()`) as a stream `fresh : Nat → String`; `fresh 0` is
the initial candidate.  Modelled from the spec: the string form of an
`InstanceUuid` (types.rs is not under src) is a plain string, compared by its
first eight characters. -/

/-- Whether a candidate identifier shares its 8-character identity prefix with
a registered key, exactly as the loop compares them: keys shorter than eight
characters are never considered colliding. -/
def collides (k cand : String) : Prop :=
  8 ≤ k.length ∧ k.take 8 = cand.take 8

instance (k cand : String) : Decidable (collides k cand) := by
  unfold collides
  infer_instance

/-- Single pass of the collision-check loop over the registry keys, carrying
the current candidate identifier and the index of the next fresh identifier. -/
def pickLoop (fresh : Nat → String) : List String → String × Nat → String × Nat
  | [], acc => acc
  | k :: ks, (cur, idx) =>
    if collides k cur then
      pickLoop fresh ks (fresh idx, idx + 1)
    else
      pickLoop fresh ks (cur, idx)

/-- Identity assigned to a new instance by `create_minecraft_instance`, given
the registry keys (in iteration order) and the generator stream. -/
def pickInstanceUuid (keys : List String) (fresh : Nat → String) : String :=
  (pickLoop fresh keys (fresh 0, 1)).1

/-! ## Lifecycle state (traits/t_server.rs State, as used by the handlers) -/

/-- Lifecycle state of an instance.  Modelled from the spec: the `State` enum
itself lives in traits/t_server.rs, which is not under src; the spec gives its
variants as Stopped, Starting, Running, Stopping. -/
inductive LState where
  | stopped
  | starting
  | running
  | stopping
  deriving DecidableEq, Repr

/-! ## Minecraft flavours (implementations/minecraft/mod.rs) -/

/-- Server-software flavour, from `enum Flavour` in minecraft/mod.rs.  The
newtype payloads (FabricLoaderVersion, FabricInstallerVersion,
PaperBuildVersion, ForgeBuildVersion) are carried as their underlying
string/integer values. -/
inductive Flavour where
  | vanilla
  | fabric (loaderVersion installerVersion : Option String)
  | paper (buildVersion : Option Int)
  | spigot
  | forge (buildVersion : Option String)
  deriving DecidableEq, Repr

/-- String form of a flavour, from `impl ToString for Flavour`. -/
def flavourToString : Flavour → String
  | Flavour.vanilla => "vanilla"
  | Flavour.fabric _ _ => "fabric"
  | Flavour.paper _ => "paper"
  | Flavour.spigot => "spigot"
  | Flavour.forge _ => "forge"

/-! ## Provisioning pipeline events
(handlers/instance.rs create_minecraft_instance spawned task, and
implementations/minecraft/mod.rs MinecraftInstance::new)

Progression events carry the shared `event_id` of the provisioning run; the
`progress` field of an update is the step-local increment the code computes
(a number of the ten progress units announced by `total`), embedded as a
rational.  Download callbacks are driven by the observed chunk sequence: each
chunk reports the chunk size `step`, the cumulative `downloaded` bytes, and
the optional known `total` size, exactly the fields of the `download_file`
progress callback. -/

/-- Progression event as published on the event bus for a provisioning run. -/
inductive CEvent where
  | start (eid : Nat) (total : ℚ)
  | update (eid : Nat) (progress : ℚ) (msg : String)
  | endEv (eid : Nat) (success : Bool) (msg : String)
  deriving DecidableEq, Repr

/-- One observed download-progress callback invocation. -/
structure DlChunk where
  step : Nat
  downloaded : Nat
  total : Option Nat
  deriving DecidableEq, Repr

/-- Byte-count formatter used in progress messages.  Modelled from the spec:
`format_byte_download` lives in util, which is not under src; only the shape
of the message matters here. -/
def formatByteDownload (downloaded total : Nat) : String :=
  toString downloaded ++ "/" ++ toString total

/-- Byte-count formatter for a download of unknown total size.  Modelled from
the spec: `format_byte` lives in util, which is not under src. -/
def formatByte (downloaded : Nat) : String :=
  toString downloaded

/-- Events emitted by the JRE download callback (step 2): an update is sent
only when the total size is known, with progress scaled into 4 of the 10
progress units. -/
def jreChunkEvents (eid : Nat) (chunks : List DlChunk) : List CEvent :=
  chunks.filterMap fun ch =>
    match ch.total with
    | some t =>
      some (CEvent.update eid ((ch.step : ℚ) / (t : ℚ) * 4)
        ("2/4: Downloading JRE " ++ formatByteDownload ch.downloaded t))
    | none => none

/-- Events emitted by the server-jar download callback (step 3): with a known
total the progress is scaled into 3 of the 10 progress units; with an unknown
total the update carries progress 0 and reports cumulative bytes. -/
def jarChunkEvents (eid : Nat) (flavourName jarName : String) (chunks : List DlChunk) :
    List CEvent :=
  chunks.map fun ch =>
    match ch.total with
    | some t =>
      CEvent.update eid ((ch.step : ℚ) / (t : ℚ) * 3)
        ("3/4: Downloading " ++ flavourName ++ " " ++ jarName ++ " "
          ++ formatByteDownload ch.downloaded t)
    | none =>
      CEvent.update eid 0
        ("3/4: Downloading " ++ flavourName ++ " " ++ jarName ++ " "
          ++ formatByte ch.downloaded)

/-- Environment of one run of `MinecraftInstance::new`: the outcomes of its
filesystem operations, version resolutions and downloads, in program order. -/
structure NewEnv where
  flavour : Flavour
  version : String
  port : Nat
  createFilesOk : Bool
  jreUrl : Option (String × Nat)
  jreCached : Bool
  jreChunks : List DlChunk
  jreDownloadOk : Bool
  unzippedCount : Nat
  jreInstallOk : Bool
  jarUrl : Option (String × Flavour)
  jarChunks : List DlChunk
  jarDownloadOk : Bool
  forgeInstallOk : Bool
  userJvmArgsOk : Bool
  writeConfigOk : Bool
  deriving DecidableEq, Repr

/-- Steps 3 part 2 and 4 of `MinecraftInstance::new`: the Forge installer run
(only for the Forge flavour) and the finishing update plus the restore-config
write, which is the commit point.  Returns the events emitted from this point
on and the overall result. -/
def mcNewFinish (eid : Nat) (env : NewEnv) (resolvedFlavour : Flavour) :
    List CEvent × Except String Unit :=
  let finish : List CEvent × Except String Unit :=
    let ev4 := [CEvent.update eid 1 "4/4: Finishing up"]
    if env.writeConfigOk then (ev4, Except.ok ())
    else (ev4, Except.error ("Failed to write config file"))
  match resolvedFlavour with
  | Flavour.forge _ =>
    let evForge := [CEvent.update eid 1 "3/4: Installing Forge Server"]
    if !env.forgeInstallOk then
      (evForge, Except.error ("Failed to install forge server"))
    else if !env.userJvmArgsOk then
      (evForge, Except.error ("Could not create user_jvm_args.txt"))
    else
      (evForge ++ finish.1, finish.2)
  | _ => finish

/-- Events and result of one run of `MinecraftInstance::new` (minecraft/mod.rs
lines 175-469): step 1 creates directories and placeholder files, step 2
resolves and (unless cached) downloads and installs the JRE, step 3 resolves
and downloads the server jar (plus the Forge installer for Forge), step 4
writes the restore-config file.  `Except.ok` means the config file was
written. -/
def mcInstanceNew (eid : Nat) (env : NewEnv) : List CEvent × Except String Unit :=
  let ev1 := [CEvent.update eid 1 "1/4: Creating directories"]
  if !env.createFilesOk then
    (ev1, Except.error ("Could not create some files or directories for instance"))
  else
    match env.jreUrl with
    | none => (ev1, Except.error ("Could not get JRE URL"))
    | some _ =>
      let ev2 :=
        if env.jreCached then [CEvent.update eid 4 "2/4: JRE already downloaded"]
        else jreChunkEvents eid env.jreChunks
      let evs12 := ev1 ++ ev2
      if !env.jreCached && !env.jreDownloadOk then
        (evs12, Except.error ("Failed to download JRE"))
      else if !env.jreCached && env.unzippedCount ≠ 1 then
        (evs12, Except.error ("Expected only one file in the JRE archive, got "
          ++ toString env.unzippedCount))
      else if !env.jreCached && !env.jreInstallOk then
        (evs12, Except.error ("Could not install the JRE into the runtime cache"))
      else
        match env.jarUrl with
        | none =>
          (evs12, Except.error ("Could not find a " ++ flavourToString env.flavour
            ++ " server.jar for version " ++ env.version))
        | some (_, resolvedFlavour) =>
          let jarName :=
            match resolvedFlavour with
            | Flavour.forge _ => "forge-installer.jar"
            | _ => "server.jar"
          let ev3 := jarChunkEvents eid (flavourToString env.flavour) jarName env.jarChunks
          let evs123 := evs12 ++ ev3
          if !env.jarDownloadOk then
            (evs123, Except.error ("Failed to download the server jar"))
          else
            let fin := mcNewFinish eid env resolvedFlavour
            (evs123 ++ fin.1, fin.2)

/-- Observable actions of the background creation task spawned by
`create_minecraft_instance`, in execution order. -/
inductive TAct where
  | emit (e : CEvent)
  | removeDirAll (ok : Bool)
  | panicked (msg : String)
  | addPort (p : Nat)
  | register (uuid : String) (st : LState)
  deriving DecidableEq, Repr

/-- Action trace of the background creation task (handlers/instance.rs lines
131-209): a ProgressionStart with total 10 is published, then
`MinecraftInstance::new` runs; on success a ProgressionEnd with success true
is published and the instance is registered (port added, inserted into the
registry with the Stopped state `restore` initializes); on failure a
ProgressionEnd with success false is published and then the instance
directory is removed, with the removal result unwrapped — a removal failure
panics the task. -/
def createTask (eid : Nat) (uuid : String) (env : NewEnv) (removeDirOk : Bool) :
    List TAct :=
  let startAct := TAct.emit (CEvent.start eid 10)
  match mcInstanceNew eid env with
  | (evs, Except.ok _) =>
    startAct :: evs.map TAct.emit
      ++ [TAct.emit (CEvent.endEv eid true ("Instance creation success")),
          TAct.addPort env.port, TAct.register uuid LState.stopped]
  | (evs, Except.error e) =>
    startAct :: evs.map TAct.emit
      ++ [TAct.emit (CEvent.endEv eid false ("Instance creation failed: " ++ e)),
          TAct.removeDirAll removeDirOk]
      ++ (if removeDirOk then []
          else [TAct.panicked ("Failed to remove directory after instance creation failed")])

/-- Whether the instance directory still exists after the creation task: it
was created before the task started; it is gone iff the task attempted the
rollback removal and the removal succeeded. -/
def dirExistsAfter (eid : Nat) (env : NewEnv) (removeDirOk : Bool) : Bool :=
  match mcInstanceNew eid env with
  | (_, Except.ok _) => true
  | (_, Except.error _) => !removeDirOk

/-- Whether any config file for the instance remains after the creation task:
the `.lodestone_config` written before the task lives inside the instance
directory, and the restore config is written only at step 4, so after a failed
run with a successful rollback removal no config file remains. -/
def configFileRemains (eid : Nat) (env : NewEnv) (removeDirOk : Bool) : Bool :=
  match mcInstanceNew eid env with
  | (_, Except.ok _) => true
  | (_, Except.error _) => !removeDirOk

/-- Events published by an action trace, in order. -/
def actEvents (tr : List TAct) : List CEvent :=
  tr.filterMap fun a =>
    match a with
    | TAct.emit e => some e
    | _ => none

/-- Whether an event is a ProgressionStart. -/
def isStartEv : CEvent → Bool
  | CEvent.start _ _ => true
  | _ => false

/-- Whether an event is a ProgressionEnd. -/
def isEndEv : CEvent → Bool
  | CEvent.endEv _ _ _ => true
  | _ => false

/-- The event id an event carries. -/
def eventId : CEvent → Nat
  | CEvent.start eid _ => eid
  | CEvent.update eid _ _ => eid
  | CEvent.endEv eid _ _ => eid

/-- Progress values of the ProgressionUpdate events, in order. -/
def updateProgresses (evs : List CEvent) : List ℚ :=
  evs.filterMap fun e =>
    match e with
    | CEvent.update _ p _ => some p
    | _ => none

/-- Whether a list of rationals is non-decreasing. -/
def nondecList : List ℚ → Bool
  | [] => true
  | [_] => true
  | a :: b :: t => decide (a ≤ b) && nondecList (b :: t)

/-! ## Instance deletion (handlers/instance.rs delete_instance, lines 279-388) -/

/-- Registry entry for one instance, as `delete_instance` observes it. -/
structure InstMdl where
  lstate : LState
  port : Nat
  path : String
  deriving DecidableEq, Repr

/-- World shared by the handlers: the instance registry, the allocated-port
table, and the outcomes of the two filesystem removals `delete_instance`
may attempt. -/
structure DWorld where
  instances : List (String × InstMdl)
  ports : List Nat
  configRemoveOk : Bool
  dirRemoveOk : Bool
  deriving DecidableEq, Repr

/-- Observable actions of `delete_instance`, in execution order.  Events are
tagged with the event id they carry; the config-removal-failure end event uses
a fresh snowflake id, all other events the progression id. -/
inductive DAct where
  | evStart (eid : Nat)
  | removeConfig (path : String) (ok : Bool)
  | evEndFail (eid : Nat) (msg : String)
  | deallocPort (p : Nat)
  | removeRegistry (uuid : String)
  | removeDirTree (path : String) (ok : Bool)
  | evEndOk (eid : Nat)
  deriving DecidableEq, Repr

/-- Result of `delete_instance`. -/
inductive DRes where
  | ok
  | errNotFound
  | errBadRequest
  | errIo
  deriving DecidableEq, Repr

/-- The handler `delete_instance`: rejected with a not-found error for an
unknown identity and with a bad-request state error unless the instance is
Stopped; otherwise it publishes a ProgressionStart, removes the instance's
`.lodestone_config` file (a failure publishes a ProgressionEnd with success
false under a fresh event id and aborts with the registry untouched),
deallocates the port, removes the instance from the registry, then removes
the directory tree, publishing a final ProgressionEnd whose success mirrors
the directory removal. -/
def deleteInstance (w : DWorld) (uuid : String) (pid freshEid : Nat) :
    DWorld × DRes × List DAct :=
  match (w.instances.lookup uuid : Option InstMdl) with
  | none => (w, DRes.errNotFound, [])
  | some inst =>
    if inst.lstate ≠ LState.stopped then
      (w, DRes.errBadRequest, [])
    else if !w.configRemoveOk then
      (w, DRes.errIo,
        [DAct.evStart pid, DAct.removeConfig inst.path false,
         DAct.evEndFail freshEid ("Failed to delete .lodestone_config. Instance not deleted")])
    else
      let w2 : DWorld :=
        { w with
          instances := w.instances.filter (fun kv => kv.1 ≠ uuid),
          ports := w.ports.filter (fun p => p ≠ inst.port) }
      let acts :=
        [DAct.evStart pid, DAct.removeConfig inst.path true,
         DAct.deallocPort inst.port, DAct.removeRegistry uuid,
         DAct.removeDirTree inst.path w.dirRemoveOk]
      if w.dirRemoveOk then
        (w2, DRes.ok, acts ++ [DAct.evEndOk pid])
      else
        (w2, DRes.errIo,
          acts ++ [DAct.evEndFail pid ("Could not delete some or all of the files of the instance")])

/-! ## Restore of an instance (implementations/minecraft/mod.rs
MinecraftInstance::restore, lines 471-649)

The function returns a bare `MinecraftInstance`, not a `Result`: its fallible
prelude uses `expect`, so the failures below abort the task as panics instead
of yielding an error value. -/

/-- Filesystem behaviour `restore` encounters: whether server.properties
exists, whether writing a fresh one succeeds, and whether reading and parsing
the properties file (`read_properties`) succeeds. -/
structure RestoreFsEnv where
  propertiesExists : Bool
  writePropertiesOk : Bool
  readPropertiesOk : Bool
  deriving DecidableEq, Repr

/-- Outcome of `restore`: either a constructed instance (always in the
Stopped state, with its backup task spawned) or a panic; there is no error
alternative in the return type. -/
inductive RestoreOutcome where
  | panicked (msg : String)
  | ok (st : LState)
  deriving DecidableEq, Repr

/-- The fallible prelude of `MinecraftInstance::restore`: if
server.properties does not exist it is written afresh with the configured
port, and a write failure panics via `expect`; afterwards `read_properties`
runs and its failure panics via `expect`; otherwise the instance is
constructed with state Stopped. -/
def restoreRun (fs : RestoreFsEnv) : RestoreOutcome :=
  if !fs.propertiesExists && !fs.writePropertiesOk then
    RestoreOutcome.panicked ("failed to write to server.properties")
  else if !fs.readPropertiesOk then
    RestoreOutcome.panicked ("Failed to read properties")
  else
    RestoreOutcome.ok LState.stopped

/-! ## Restore configuration and its persistence (minecraft/mod.rs
RestoreConfig, traits/mod.rs InstanceInfo) -/

/-- The durable per-instance record, from `struct RestoreConfig` in
minecraft/mod.rs.  `uuid` carries the string form of the `InstanceUuid`,
`path` the string form of the `PathBuf`. -/
structure RestoreConfig where
  game_type : String
  uuid : String
  name : String
  version : String
  flavour : Flavour
  description : String
  cmd_args : List String
  path : String
  port : Nat
  min_ram : Nat
  max_ram : Nat
  creation_time : Int
  auto_start : Bool
  restart_on_crash : Bool
  backup_period : Option Nat
  jre_major_version : Nat
  has_started : Bool
  deriving DecidableEq, Repr

/-- JSON values, as written by `serde_json::to_string_pretty` and read back on
restart. -/
inductive J where
  | null
  | bool (b : Bool)
  | num (n : Int)
  | str (s : String)
  | arr (xs : List J)
  | obj (fields : List (String × J))

/-- Encoding of an optional string (None as null). -/
def encOptStr : Option String → J
  | none => J.null
  | some s => J.str s

/-- Decoding of an optional string. -/
def decOptStr : J → Option (Option String)
  | J.null => some none
  | J.str s => some (some s)
  | _ => none

/-- Encoding of an optional unsigned integer (None as null). -/
def encOptNat : Option Nat → J
  | none => J.null
  | some n => J.num n

/-- Decoding of an optional unsigned integer. -/
def decOptNat : J → Option (Option Nat)
  | J.null => some none
  | J.num (Int.ofNat n) => some (some n)
  | _ => none

/-- Encoding of an optional signed integer (None as null). -/
def encOptInt : Option Int → J
  | none => J.null
  | some n => J.num n

/-- Decoding of an optional signed integer. -/
def decOptInt : J → Option (Option Int)
  | J.null => some none
  | J.num n => some (some n)
  | _ => none

/-- Serde encoding of `Flavour` (externally tagged, snake_case variant
names; unit variants as plain strings, struct variants as one-key objects).
Modelled from the spec: the serde_json serializer itself is library code, not
under src; the derive attributes on `Flavour` fix this shape. -/
def encFlavour : Flavour → J
  | Flavour.vanilla => J.str ("vanilla")
  | Flavour.fabric lv iv =>
    J.obj [("fabric", J.obj [("loader_version", encOptStr lv),
                             ("installer_version", encOptStr iv)])]
  | Flavour.paper bv =>
    J.obj [("paper", J.obj [("build_version", encOptInt bv)])]
  | Flavour.spigot => J.str ("spigot")
  | Flavour.forge bv =>
    J.obj [("forge", J.obj [("build_version", encOptStr bv)])]

/-- Serde decoding of `Flavour`. -/
def decFlavour : J → Option Flavour
  | J.str ("vanilla") => some Flavour.vanilla
  | J.str ("spigot") => some Flavour.spigot
  | J.obj [("fabric", J.obj [("loader_version", lv), ("installer_version", iv)])] =>
    match decOptStr lv, decOptStr iv with
    | some a, some b => some (Flavour.fabric a b)
    | _, _ => none
  | J.obj [("paper", J.obj [("build_version", bv)])] =>
    match decOptInt bv with
    | some b => some (Flavour.paper b)
    | none => none
  | J.obj [("forge", J.obj [("build_version", bv)])] =>
    match decOptStr bv with
    | some b => some (Flavour.forge b)
    | none => none
  | _ => none

/-- Decoding of a string array. -/
def decStrList (j : J) : Option (List String) :=
  match j with
  | J.arr xs =>
    xs.mapM fun x =>
      match x with
      | J.str s => some s
      | _ => none
  | _ => none

/-- Serde encoding of a `RestoreConfig`, field for field.  Modelled from the
spec: the serde_json serializer is library code, not under src; the field
names come from the struct declaration. -/
def encodeRestoreConfig (c : RestoreConfig) : J :=
  J.obj
    [("game_type", J.str c.game_type),
     ("uuid", J.str c.uuid),
     ("name", J.str c.name),
     ("version", J.str c.version),
     ("flavour", encFlavour c.flavour),
     ("description", J.str c.description),
     ("cmd_args", J.arr (c.cmd_args.map J.str)),
     ("path", J.str c.path),
     ("port", J.num c.port),
     ("min_ram", J.num c.min_ram),
     ("max_ram", J.num c.max_ram),
     ("creation_time", J.num c.creation_time),
     ("auto_start", J.bool c.auto_start),
     ("restart_on_crash", J.bool c.restart_on_crash),
     ("backup_period", encOptNat c.backup_period),
     ("jre_major_version", J.num c.jre_major_version),
     ("has_started", J.bool c.has_started)]

/-- Field lookup in a JSON object. -/
def jField (fields : List (String × J)) (k : String) : Option J :=
  List.lookup k fields

/-- Decoding of a string field. -/
def decStrField (fields : List (String × J)) (k : String) : Option String :=
  match jField fields k with
  | some (J.str s) => some s
  | _ => none

/-- Decoding of an unsigned integer field. -/
def decNatField (fields : List (String × J)) (k : String) : Option Nat :=
  match jField fields k with
  | some (J.num (Int.ofNat n)) => some n
  | _ => none

/-- Decoding of a signed integer field. -/
def decIntField (fields : List (String × J)) (k : String) : Option Int :=
  match jField fields k with
  | some (J.num n) => some n
  | _ => none

/-- Decoding of a boolean field. -/
def decBoolField (fields : List (String × J)) (k : String) : Option Bool :=
  match jField fields k with
  | some (J.bool b) => some b
  | _ => none

/-- Serde decoding of a `RestoreConfig`.  Modelled from the spec: the
serde_json deserializer is library code, not under src. -/
def decodeRestoreConfig (j : J) : Option RestoreConfig :=
  match j with
  | J.obj fs =>
    (decStrField fs ("game_type")).bind fun gameType =>
    (decStrField fs ("uuid")).bind fun uuid =>
    (decStrField fs ("name")).bind fun name =>
    (decStrField fs ("version")).bind fun version =>
    ((jField fs ("flavour")).bind decFlavour).bind fun flavour =>
    (decStrField fs ("description")).bind fun description =>
    ((jField fs ("cmd_args")).bind decStrList).bind fun cmdArgs =>
    (decStrField fs ("path")).bind fun path =>
    (decNatField fs ("port")).bind fun port =>
    (decNatField fs ("min_ram")).bind fun minRam =>
    (decNatField fs ("max_ram")).bind fun maxRam =>
    (decIntField fs ("creation_time")).bind fun creationTime =>
    (decBoolField fs ("auto_start")).bind fun autoStart =>
    (decBoolField fs ("restart_on_crash")).bind fun restartOnCrash =>
    ((jField fs ("backup_period")).bind decOptNat).bind fun backupPeriod =>
    (decNatField fs ("jre_major_version")).bind fun jreMajorVersion =>
    (decBoolField fs ("has_started")).bind fun hasStarted =>
    some
      { game_type := gameType, uuid := uuid, name := name, version := version,
        flavour := flavour, description := description, cmd_args := cmdArgs,
        path := path, port := port, min_ram := minRam, max_ram := maxRam,
        creation_time := creationTime, auto_start := autoStart,
        restart_on_crash := restartOnCrash, backup_period := backupPeriod,
        jre_major_version := jreMajorVersion, has_started := hasStarted }
  | _ => none

/-- The flattened read-only projection, from `struct InstanceInfo` in
traits/mod.rs. -/
structure InstanceInfo where
  uuid : String
  name : String
  flavour : String
  game_type : String
  cmd_args : List String
  description : String
  port : Nat
  min_ram : Option Nat
  max_ram : Option Nat
  creation_time : Int
  path : String
  auto_start : Bool
  restart_on_crash : Bool
  backup_period : Option Nat
  state : LState
  player_count : Option Nat
  max_player_count : Option Nat
  deriving DecidableEq, Repr

/-- The `get_instance_info` projection of traits/mod.rs lines 169-189,
specialized to a Minecraft instance holding the given restore configuration
and lifecycle state.  Modelled from the spec: the per-field accessors
(`TConfigurable` in implementations/minecraft/configurable.rs) are not under
src; each reads the corresponding `RestoreConfig` field, `flavour` its string
form, `min_ram` and `max_ram` succeed (hence project to `some`),
`backup_period` to the configured optional period, and the player counts are
unknown for an instance that has not started. -/
def instanceInfoOf (c : RestoreConfig) (st : LState) : InstanceInfo :=
  { uuid := c.uuid
    name := c.name
    flavour := flavourToString c.flavour
    game_type := c.game_type
    cmd_args := c.cmd_args
    description := c.description
    port := c.port
    min_ram := some c.min_ram
    max_ram := some c.max_ram
    creation_time := c.creation_time
    path := c.path
    auto_start := c.auto_start
    restart_on_crash := c.restart_on_crash
    backup_period := c.backup_period
    state := st
    player_count := none
    max_player_count := none }

/-- Round trip of a restore configuration through the config file: serialize,
reload, and project the reconstructed lifecycle manager (which `restore`
initializes in the Stopped state) to its `InstanceInfo`. -/
def restoredInstanceInfo (c : RestoreConfig) : Option InstanceInfo :=
  (decodeRestoreConfig (encodeRestoreConfig c)).map fun c2 =>
    instanceInfoOf c2 LState.stopped

/-! ## Helper lemmas -/

/-- The inner pause-wait loop with a closed queue is a fixpoint of the backup
task step function. -/
theorem schedStep_pausedWait_closed (per : Option Nat) (cnt b : Nat) :
    schedStep ⟨SchedPhase.pausedWait, per, cnt, [], b⟩
      = ⟨SchedPhase.pausedWait, per, cnt, [], b⟩ := rfl

/-- Running ticks with a constant configured period P: the counter counts
ticks since the last backup and a backup fires exactly on every P-th tick. -/
theorem schedProc_replicate_ticks (P : Nat) (hP : 1 ≤ P) :
    ∀ (n c b : Nat), c < P →
      schedProc ⟨false, some P, c, b⟩ (List.replicate n (SEv.tick true))
        = ⟨false, some P, (c + n) % P, b + (c + n) / P⟩ := by
  intro n
  induction n with
  | zero =>
    intro c b hc
    simp [schedProc, Nat.mod_eq_of_lt hc, Nat.div_eq_of_lt hc]
  | succ n ih =>
    intro c b hc
    rw [List.replicate_succ]
    show schedProc (schedProcEv ⟨false, some P, c, b⟩ (SEv.tick true))
      (List.replicate n (SEv.tick true)) = _
    by_cases h : P ≤ c + 1
    · have h1 : schedProcEv ⟨false, some P, c, b⟩ (SEv.tick true)
          = ⟨false, some P, 0, b + 1⟩ := by
        simp [schedProcEv, h]
      rw [h1, ih 0 (b + 1) hP]
      have hsum : c + (n + 1) = P + n := by omega
      rw [hsum, Nat.add_mod_left, Nat.add_div_left _ hP]
      simp [Nat.zero_add, Nat.add_comm, Nat.add_assoc, Nat.add_left_comm]
    · have h1 : schedProcEv ⟨false, some P, c, b⟩ (SEv.tick true)
          = ⟨false, some P, c + 1, b⟩ := by
        simp [schedProcEv, h]
      rw [h1, ih (c + 1) b (by omega)]
      have hsum : c + 1 + n = c + (n + 1) := by omega
      rw [hsum]

/-- Any single scheduler loop iteration fires at most one backup. -/
theorem schedProcEv_backups_le (c : SchedCfg) (ev : SEv) :
    (schedProcEv c ev).backups ≤ c.backups + 1 := by
  rcases c with ⟨paused, period, counter, backups⟩
  rcases ev with i | r
  · cases paused <;> cases i <;> simp [schedProcEv]
  · rcases period with _ | p
    · cases paused <;> cases r <;> simp [schedProcEv]
    · cases paused <;> cases r <;> simp [schedProcEv]
      split <;> simp

/-- A single pass that detects no collision keeps the current candidate. -/
theorem pickLoop_clean (fresh : Nat → String) :
    ∀ (keys : List String) (cur : String) (idx : Nat),
      (∀ k ∈ keys, ¬ collides k cur) →
      pickLoop fresh keys (cur, idx) = (cur, idx) := by
  intro keys
  induction keys with
  | nil => intro cur idx _; rfl
  | cons k ks ih =>
    intro cur idx h
    have hk : ¬ collides k cur := h k (List.mem_cons_self k ks)
    rw [pickLoop, if_neg hk]
    exact ih cur idx fun x hx => h x (List.mem_cons_of_mem k hx)

/-! ## Claim theorems -/

/-- Claim C2, counterexample.  The collision-check loop is a single pass: the
candidate regenerated at the second key is rechecked only against the keys not
yet visited, so with registry keys prefixed aaaaaaaa and bbbbbbbb, an initial
candidate prefixed bbbbbbbb, and a regenerated identifier prefixed aaaaaaaa,
the assigned identity shares its 8-character prefix with the first registered
identity — refuting the claim that the assigned identity never shares its
prefix with any currently registered identity. -/
theorem uuid_collision_counterexample :
    pickInstanceUuid ["aaaaaaaa-key1", "bbbbbbbb-key2"]
        (fun i => if i = 0 then "bbbbbbbb-gen0" else "aaaaaaaa-gen1")
      = "aaaaaaaa-gen1" ∧
    collides "aaaaaaaa-key1"
      (pickInstanceUuid ["aaaaaaaa-key1", "bbbbbbbb-key2"]
        (fun i => if i = 0 then "bbbbbbbb-gen0" else "aaaaaaaa-gen1")) := by
  constructor
  · decide
  · decide

/-- Claim C2, amended.  When the initial candidate identity collides with no
registered identity, the single pass keeps it, and the assigned identity
shares its 8-character prefix with no registered identity; in general the
regenerated candidate is rechecked only against the identities not yet
examined in the pass. -/
theorem uuid_no_collision_when_initial_clean (keys : List String)
    (fresh : Nat → String) (h : ∀ k ∈ keys, ¬ collides k (fresh 0)) :
    pickInstanceUuid keys fresh = fresh 0 ∧
    ∀ k ∈ keys, ¬ collides k (pickInstanceUuid keys fresh) := by
  have hp : pickInstanceUuid keys fresh = fresh 0 := by
    unfold pickInstanceUuid
    rw [pickLoop_clean fresh keys (fresh 0) 1 h]
  exact ⟨hp, fun k hk => hp ▸ h k hk⟩

/-- Claim C2, witness for the amended theorem at a concrete registry. -/
theorem uuid_no_collision_when_initial_clean_witness :
    (∀ k ∈ ["cccccccc-key1"], ¬ collides k "dddddddd-gen0") ∧
    (pickInstanceUuid ["cccccccc-key1"] (fun _ => "dddddddd-gen0")
        = "dddddddd-gen0" ∧
      ∀ k ∈ ["cccccccc-key1"],
        ¬ collides k (pickInstanceUuid ["cccccccc-key1"] (fun _ => "dddddddd-gen0"))) :=
  ⟨by decide,
   uuid_no_collision_when_initial_clean ["cccccccc-key1"]
     (fun _ => "dddddddd-gen0") (by decide)⟩

/-- Claim C3, counterexample.  A BackupNow instruction delivered while a Pause
is in effect is discarded by the inner wait loop: the trace Pause, BackupNow,
Resume fires no backup, refuting the claim that BackupNow causes exactly one
backup regardless of whether a Pause is currently in effect. -/
theorem backupNow_during_pause_counterexample :
    (schedProc ⟨false, none, 0, 0⟩
      [SEv.instr BInstr.pause, SEv.instr BInstr.backupNow,
       SEv.instr BInstr.resume]).backups = 0 := by
  decide

/-- Claim C3, amended.  A BackupNow instruction fires exactly one backup
immediately, regardless of the lifecycle state, provided no Pause is in
effect; while a Pause is in effect a BackupNow instruction is discarded and
fires no backup; Pause suspends the timer-driven behaviour until the matching
Resume, and a second Pause before a Resume is not cumulative — a single
Resume resumes. -/
theorem backupNow_and_pause_semantics (per : Option Nat) (cnt b : Nat) (r : Bool) :
    schedProcEv ⟨false, per, cnt, b⟩ (SEv.instr BInstr.backupNow)
      = ⟨false, per, cnt, b + 1⟩ ∧
    schedProcEv ⟨true, per, cnt, b⟩ (SEv.instr BInstr.backupNow)
      = ⟨true, per, cnt, b⟩ ∧
    schedProcEv ⟨true, per, cnt, b⟩ (SEv.tick r) = ⟨true, per, cnt, b⟩ ∧
    schedProc ⟨false, per, cnt, b⟩
        [SEv.instr BInstr.pause, SEv.instr BInstr.pause, SEv.instr BInstr.resume]
      = ⟨false, per, cnt, b⟩ := by
  refine ⟨?_, rfl, rfl, ?_⟩ <;> cases per <;> rfl

/-- Claim C4.  The backup task terminates when its queue closes in the main
loop; but when the queue closes while the task sits in the inner pause-wait
loop (a Pause with no following Resume), the `recv` returning `None` falls
into the `else continue` branch and the task never exits — it busy-loops
forever instead of terminating, contradicting the specified behaviour that
queue closure stops the task from every reachable state. -/
theorem backup_task_close_termination (n : Nat) (per : Option Nat) (cnt b : Nat) :
    (schedStep ⟨SchedPhase.main, per, cnt, [], b⟩).phase = SchedPhase.exited ∧
    (schedStep^[n] ⟨SchedPhase.pausedWait, per, cnt, [], b⟩).phase
      ≠ SchedPhase.exited := by
  constructor
  · rfl
  · rw [Function.iterate_fixed (schedStep_pausedWait_closed per cnt b) n]
    simp

/-- Claim C5.  While a non-null period P is configured and the state is
Running held continuously, the scheduler fires a backup exactly on every P-th
tick — so at least once every P ticks — with the tick counter counting ticks
since the last backup; a tick fires no backup when the state is not Running
or the period is null, and no loop iteration ever fires more than one
backup. -/
theorem backup_periodic_schedule (P n cnt b : Nat) (r : Bool)
    (hP : 1 ≤ P) :
    (schedProc ⟨false, some P, 0, b⟩ (List.replicate n (SEv.tick true))).backups
      = b + n / P ∧
    schedProcEv ⟨false, some P, cnt, b⟩ (SEv.tick false)
      = ⟨false, some P, cnt, b⟩ ∧
    schedProcEv ⟨false, none, cnt, b⟩ (SEv.tick r) = ⟨false, none, cnt, b⟩ ∧
    ∀ c ev, (schedProcEv c ev).backups ≤ c.backups + 1 := by
  refine ⟨?_, rfl, rfl, schedProcEv_backups_le⟩
  rw [schedProc_replicate_ticks P hP n 0 b hP]
  simp

/-- Claim C5, witness: period 2, five continuous Running ticks, two backups. -/
theorem backup_periodic_schedule_witness :
    1 ≤ 2 ∧
    ((schedProc ⟨false, some 2, 0, 0⟩
        (List.replicate 5 (SEv.tick true))).backups = 0 + 5 / 2 ∧
      schedProcEv ⟨false, some 2, 1, 0⟩ (SEv.tick false) = ⟨false, some 2, 1, 0⟩ ∧
      schedProcEv ⟨false, none, 1, 0⟩ (SEv.tick true) = ⟨false, none, 1, 0⟩ ∧
      ∀ c ev, (schedProcEv c ev).backups ≤ c.backups + 1) :=
  ⟨by decide, backup_periodic_schedule 2 5 1 0 true (by decide)⟩

/-- Claim C10.  MinecraftInstance::restore is not total at its public
interface: when server.properties is absent and cannot be written, or when the
properties cannot be read or parsed, the task panics; and every run either
panics or yields an instance (in the Stopped state) — the return type offers
no error alternative. -/
theorem restore_panics_on_bad_properties :
    restoreRun ⟨false, false, true⟩
      = RestoreOutcome.panicked ("failed to write to server.properties") ∧
    restoreRun ⟨true, true, false⟩
      = RestoreOutcome.panicked ("Failed to read properties") ∧
    ∀ fs : RestoreFsEnv, restoreRun fs = RestoreOutcome.ok LState.stopped ∨
      ∃ m, restoreRun fs = RestoreOutcome.panicked m := by
  refine ⟨rfl, rfl, ?_⟩
  intro fs
  unfold restoreRun
  split
  · exact Or.inr ⟨_, rfl⟩
  · split
    · exact Or.inr ⟨_, rfl⟩
    · exact Or.inl rfl

/-- Serde round trip of a flavour value. -/
theorem decFlavour_encFlavour (f : Flavour) : decFlavour (encFlavour f) = some f := by
  cases f with
  | vanilla => rfl
  | spigot => rfl
  | fabric lv iv => cases lv <;> cases iv <;> rfl
  | paper bv => cases bv <;> rfl
  | forge bv => cases bv <;> rfl

/-- Serde round trip of a string array. -/
theorem decStrList_enc (l : List String) :
    decStrList (J.arr (l.map J.str)) = some l := by
  induction l with
  | nil => rfl
  | cons a t ih =>
    simp only [decStrList] at ih ⊢
    rw [List.map_cons, List.mapM_cons]
    simp only [ih]
    rfl

/-- Claim C9.  Serializing a restore configuration to the config file and
reloading it reconstructs a lifecycle manager whose InstanceInfo projection is
field-for-field identical to the projection of the in-memory configuration
before persistence. -/
theorem restore_config_roundtrip (c : RestoreConfig) :
    decodeRestoreConfig (encodeRestoreConfig c) = some c ∧
    restoredInstanceInfo c = some (instanceInfoOf c LState.stopped) := by
  have hbp : decOptNat (encOptNat c.backup_period) = some c.backup_period := by
    cases c.backup_period <;> rfl
  have hdec : decodeRestoreConfig (encodeRestoreConfig c) = some c := by
    calc decodeRestoreConfig (encodeRestoreConfig c)
        = (decFlavour (encFlavour c.flavour)).bind (fun fl =>
            (decStrList (J.arr (c.cmd_args.map J.str))).bind (fun ca =>
              (decOptNat (encOptNat c.backup_period)).bind (fun bp =>
                some { game_type := c.game_type, uuid := c.uuid, name := c.name,
                       version := c.version, flavour := fl,
                       description := c.description, cmd_args := ca,
                       path := c.path, port := c.port, min_ram := c.min_ram,
                       max_ram := c.max_ram, creation_time := c.creation_time,
                       auto_start := c.auto_start,
                       restart_on_crash := c.restart_on_crash,
                       backup_period := bp,
                       jre_major_version := c.jre_major_version,
                       has_started := c.has_started }))) := rfl
      _ = some c := by
          rw [decFlavour_encFlavour, decStrList_enc, hbp]
          rfl
  refine ⟨hdec, ?_⟩
  unfold restoredInstanceInfo
  rw [hdec]
  rfl

/-- Filtering out a key from an association list makes its lookup fail. -/
theorem lookup_filter_self (uuid : String) (l : List (String × InstMdl)) :
    ((l.filter fun kv => kv.1 ≠ uuid).lookup uuid : Option InstMdl) = none := by
  induction l with
  | nil => rfl
  | cons kv t ih =>
    rcases kv with ⟨k, v⟩
    by_cases hk : k ≠ uuid
    · rw [List.filter_cons_of_pos (by simpa using hk)]
      have hne : (uuid == k) = false := by
        simp [Ne.symm hk]
      simp only [List.lookup, hne]
      exact ih
    · rw [List.filter_cons_of_neg (by simpa using hk)]
      exact ih

/-- Claim C6.  Deleting an unknown identity fails with a not-found error, and
deleting a registered instance whose lifecycle state is not Stopped fails with
a state error; in both cases the world is unchanged — the instance stays in
the registry, the port table is untouched, and no filesystem action or event
occurs (the action trace is empty). -/
theorem delete_rejected_states (w : DWorld) (uuid : String) (pid freshEid : Nat) :
    ((w.instances.lookup uuid : Option InstMdl) = none →
      deleteInstance w uuid pid freshEid = (w, DRes.errNotFound, [])) ∧
    ∀ inst : InstMdl, (w.instances.lookup uuid : Option InstMdl) = some inst →
      inst.lstate ≠ LState.stopped →
      deleteInstance w uuid pid freshEid = (w, DRes.errBadRequest, []) := by
  constructor
  · intro h
    unfold deleteInstance
    rw [h]
  · intro inst h hs
    unfold deleteInstance
    rw [h]
    simp only [if_pos hs]

/-- Claim C6, witness: a one-instance world with a Running instance rejects
deletion of that instance and of an unknown identity, unchanged. -/
theorem delete_rejected_states_witness :
    (((⟨[("u1", ⟨LState.running, 25565, "inst-dir"⟩)], [25565], true, true⟩ :
        DWorld).instances.lookup "u2" : Option InstMdl) = none →
      deleteInstance ⟨[("u1", ⟨LState.running, 25565, "inst-dir"⟩)], [25565], true, true⟩
          "u2" 1 2
        = (⟨[("u1", ⟨LState.running, 25565, "inst-dir"⟩)], [25565], true, true⟩,
           DRes.errNotFound, [])) ∧
    (∀ inst : InstMdl,
      ((⟨[("u1", ⟨LState.running, 25565, "inst-dir"⟩)], [25565], true, true⟩ :
          DWorld).instances.lookup "u1" : Option InstMdl) = some inst →
      inst.lstate ≠ LState.stopped →
      deleteInstance ⟨[("u1", ⟨LState.running, 25565, "inst-dir"⟩)], [25565], true, true⟩
          "u1" 1 2
        = (⟨[("u1", ⟨LState.running, 25565, "inst-dir"⟩)], [25565], true, true⟩,
           DRes.errBadRequest, [])) ∧
    deleteInstance ⟨[("u1", ⟨LState.running, 25565, "inst-dir"⟩)], [25565], true, true⟩
        "u1" 1 2
      = (⟨[("u1", ⟨LState.running, 25565, "inst-dir"⟩)], [25565], true, true⟩,
         DRes.errBadRequest, []) :=
  ⟨(delete_rejected_states _ "u2" 1 2).1,
   (delete_rejected_states _ "u1" 1 2).2,
   (delete_rejected_states _ "u1" 1 2).2 ⟨LState.running, 25565, "inst-dir"⟩
     (by decide) (by decide)⟩

/-- Claim C7.  Accepted deletion of a Stopped instance proceeds in order:
config file removal first (the commit point), then port release, then
registry removal, then best-effort directory-tree removal; a config-removal
failure aborts with the world untouched and the instance still registered,
while after a successful config removal the instance is gone from the
registry and its port released even if the directory removal fails. -/
theorem delete_stopped_commit_order (w : DWorld) (uuid : String) (pid freshEid : Nat)
    (inst : InstMdl) (h : (w.instances.lookup uuid : Option InstMdl) = some inst)
    (hs : inst.lstate = LState.stopped) :
    (w.configRemoveOk = false →
      deleteInstance w uuid pid freshEid
        = (w, DRes.errIo,
            [DAct.evStart pid, DAct.removeConfig inst.path false,
             DAct.evEndFail freshEid
               ("Failed to delete .lodestone_config. Instance not deleted")])) ∧
    (w.configRemoveOk = true →
      (deleteInstance w uuid pid freshEid).2.2
          = [DAct.evStart pid, DAct.removeConfig inst.path true,
             DAct.deallocPort inst.port, DAct.removeRegistry uuid,
             DAct.removeDirTree inst.path w.dirRemoveOk]
            ++ (if w.dirRemoveOk then [DAct.evEndOk pid]
                else [DAct.evEndFail pid
                  ("Could not delete some or all of the files of the instance")]) ∧
      ((deleteInstance w uuid pid freshEid).1.instances.lookup uuid
          : Option InstMdl) = none ∧
      inst.port ∉ (deleteInstance w uuid pid freshEid).1.ports) := by
  have hns : ¬ inst.lstate ≠ LState.stopped := by simp [hs]
  constructor
  · intro hc
    unfold deleteInstance
    rw [h]
    simp only [if_neg hns, hc]
    rfl
  · intro hc
    have hrun : deleteInstance w uuid pid freshEid
        = ({ w with
              instances := w.instances.filter fun kv => kv.1 ≠ uuid,
              ports := w.ports.filter fun p => p ≠ inst.port },
           (if w.dirRemoveOk then DRes.ok else DRes.errIo),
           [DAct.evStart pid, DAct.removeConfig inst.path true,
            DAct.deallocPort inst.port, DAct.removeRegistry uuid,
            DAct.removeDirTree inst.path w.dirRemoveOk]
            ++ (if w.dirRemoveOk then [DAct.evEndOk pid]
                else [DAct.evEndFail pid
                  ("Could not delete some or all of the files of the instance")])) := by
      unfold deleteInstance
      rw [h]
      simp only [if_neg hns, hc]
      by_cases hd : w.dirRemoveOk <;> simp [hd]
    rw [hrun]
    refine ⟨rfl, lookup_filter_self uuid w.instances, ?_⟩
    simp

/-- Claim C7, witness: a Stopped instance in a one-instance world, with the
directory removal failing, is still removed from the registry with its port
released, after the action order above. -/
theorem delete_stopped_commit_order_witness :
    (((⟨[("u7", ⟨LState.stopped, 25599, "dir7"⟩)], [25599], true, false⟩ :
        DWorld).instances.lookup "u7" : Option InstMdl)
      = some ⟨LState.stopped, 25599, "dir7"⟩) ∧
    ((⟨LState.stopped, 25599, "dir7"⟩ : InstMdl).lstate = LState.stopped) ∧
    ((⟨[("u7", ⟨LState.stopped, 25599, "dir7"⟩)], [25599], true, false⟩ :
        DWorld).configRemoveOk = true →
      (deleteInstance ⟨[("u7", ⟨LState.stopped, 25599, "dir7"⟩)], [25599], true, false⟩
          "u7" 3 4).2.2
          = [DAct.evStart 3, DAct.removeConfig "dir7" true,
             DAct.deallocPort 25599, DAct.removeRegistry "u7",
             DAct.removeDirTree "dir7" false]
            ++ (if (false : Bool) then [DAct.evEndOk 3]
                else [DAct.evEndFail 3
                  ("Could not delete some or all of the files of the instance")]) ∧
      ((deleteInstance ⟨[("u7", ⟨LState.stopped, 25599, "dir7"⟩)], [25599], true, false⟩
          "u7" 3 4).1.instances.lookup "u7" : Option InstMdl) = none ∧
      (25599 : Nat) ∉ (deleteInstance
          ⟨[("u7", ⟨LState.stopped, 25599, "dir7"⟩)], [25599], true, false⟩
          "u7" 3 4).1.ports) :=
  ⟨by decide, by decide,
   (delete_stopped_commit_order
      ⟨[("u7", ⟨LState.stopped, 25599, "dir7"⟩)], [25599], true, false⟩
      "u7" 3 4 ⟨LState.stopped, 25599, "dir7"⟩ (by decide) (by decide)).2⟩

/-- Events of a concatenated action trace. -/
theorem actEvents_append (l1 l2 : List TAct) :
    actEvents (l1 ++ l2) = actEvents l1 ++ actEvents l2 := by
  unfold actEvents
  rw [List.filterMap_append]

/-- Events of a trace of pure emissions. -/
theorem actEvents_map_emit (l : List CEvent) : actEvents (l.map TAct.emit) = l := by
  induction l with
  | nil => rfl
  | cons a t ih =>
    unfold actEvents at ih ⊢
    rw [List.map_cons, List.filterMap_cons]
    simp only [ih]

/-- Every JRE download callback event is an update carrying the shared event
id and a non-negative progress increment. -/
theorem jreChunkEvents_shape (eid : Nat) (chunks : List DlChunk) :
    ∀ e ∈ jreChunkEvents eid chunks, ∃ p m, e = CEvent.update eid p m ∧ 0 ≤ p := by
  intro e he
  unfold jreChunkEvents at he
  rw [List.mem_filterMap] at he
  obtain ⟨ch, _, hch⟩ := he
  cases ht : ch.total with
  | none => rw [ht] at hch; exact absurd hch (by simp)
  | some t =>
    rw [ht] at hch
    simp only [Option.some_inj] at hch
    refine ⟨_, _, hch.symm, ?_⟩
    positivity

/-- Every server-jar download callback event is an update carrying the shared
event id and a non-negative progress increment. -/
theorem jarChunkEvents_shape (eid : Nat) (fn jn : String) (chunks : List DlChunk) :
    ∀ e ∈ jarChunkEvents eid fn jn chunks,
      ∃ p m, e = CEvent.update eid p m ∧ 0 ≤ p := by
  intro e he
  unfold jarChunkEvents at he
  rw [List.mem_map] at he
  obtain ⟨ch, _, hch⟩ := he
  cases ht : ch.total with
  | none =>
    rw [ht] at hch
    exact ⟨_, _, hch.symm, le_refl 0⟩
  | some t =>
    rw [ht] at hch
    refine ⟨_, _, hch.symm, ?_⟩
    positivity

/-- A run of MinecraftInstance::new in which steps 1 and 2 succeed and step 3
fails to resolve a server jar for the requested flavour and version: the
events are those of steps 1 and 2, and the result is the no-matching-build
error. -/
theorem mcInstanceNew_step3_failure (eid : Nat) (env : NewEnv) (u : String × Nat)
    (h1 : env.createFilesOk = true) (hu : env.jreUrl = some u)
    (h3 : env.jreDownloadOk = true) (h4 : env.unzippedCount = 1)
    (h5 : env.jreInstallOk = true) (hj : env.jarUrl = none) :
    mcInstanceNew eid env
      = ([CEvent.update eid 1 "1/4: Creating directories"]
          ++ (if env.jreCached then [CEvent.update eid 4 "2/4: JRE already downloaded"]
              else jreChunkEvents eid env.jreChunks),
         Except.error ("Could not find a " ++ flavourToString env.flavour
           ++ " server.jar for version " ++ env.version)) := by
  unfold mcInstanceNew
  rw [h1, hu, hj]
  simp [h3, h4, h5]

/-- A run of MinecraftInstance::new in which every step succeeds and the jar
resolution yields the Vanilla flavour: the emitted events are the four steps
in order and the config file is written. -/
theorem mcInstanceNew_vanilla_success (eid : Nat) (env : NewEnv) (u : String × Nat)
    (s : String) (h1 : env.createFilesOk = true) (hu : env.jreUrl = some u)
    (h3 : env.jreDownloadOk = true) (h4 : env.unzippedCount = 1)
    (h5 : env.jreInstallOk = true) (hj : env.jarUrl = some (s, Flavour.vanilla))
    (h6 : env.jarDownloadOk = true) (h7 : env.writeConfigOk = true) :
    mcInstanceNew eid env
      = ([CEvent.update eid 1 "1/4: Creating directories"]
          ++ (if env.jreCached then [CEvent.update eid 4 "2/4: JRE already downloaded"]
              else jreChunkEvents eid env.jreChunks)
          ++ jarChunkEvents eid (flavourToString env.flavour) "server.jar" env.jarChunks
          ++ [CEvent.update eid 1 "4/4: Finishing up"],
         Except.ok ()) := by
  unfold mcInstanceNew mcNewFinish
  rw [h1, hu, hj]
  simp [h3, h4, h5, h6, h7]

/-- Claim C1, counterexample.  When provisioning fails at step 3 and the
rollback directory removal itself fails, the background task unwraps the
removal result and panics: the removal failure is not handled as a logged
non-fatal warning.  The failure event is still emitted before the removal
attempt, and the panic follows it. -/
theorem rollback_failure_panics_counterexample :
    createTask 7 "uuid-1"
        ⟨Flavour.vanilla, "1.20.1", 25565, true, some ("jre-url", 17), true, [],
         true, 1, true, none, [], true, true, true, true⟩ false
      = [TAct.emit (CEvent.start 7 10),
         TAct.emit (CEvent.update 7 1 "1/4: Creating directories"),
         TAct.emit (CEvent.update 7 4 "2/4: JRE already downloaded"),
         TAct.emit (CEvent.endEv 7 false
           ("Instance creation failed: Could not find a vanilla server.jar for version 1.20.1")),
         TAct.removeDirAll false,
         TAct.panicked ("Failed to remove directory after instance creation failed")] ∧
    TAct.panicked ("Failed to remove directory after instance creation failed")
      ∈ createTask 7 "uuid-1"
          ⟨Flavour.vanilla, "1.20.1", 25565, true, some ("jre-url", 17), true, [],
           true, 1, true, none, [], true, true, true, true⟩ false := by
  constructor <;> decide

/-- Claim C1, amended.  If provisioning fails at step 3 (no matching server
jar), the task emits a ProgressionEnd with success false and a human-readable
message and then removes the instance directory; when the removal succeeds
the directory no longer exists and no config file remains; but a failure of
the removal itself panics the background task (the handler unwraps the
removal result) rather than being reported as a logged non-fatal warning —
the already-emitted provisioning failure event still precedes the removal and
is not replaced. -/
theorem provisioning_step3_rollback (eid : Nat) (uuid : String) (env : NewEnv)
    (removeDirOk : Bool) (u : String × Nat)
    (h1 : env.createFilesOk = true) (hu : env.jreUrl = some u)
    (h3 : env.jreDownloadOk = true) (h4 : env.unzippedCount = 1)
    (h5 : env.jreInstallOk = true) (hj : env.jarUrl = none) :
    createTask eid uuid env removeDirOk
      = TAct.emit (CEvent.start eid 10)
          :: ((mcInstanceNew eid env).1.map TAct.emit
            ++ [TAct.emit (CEvent.endEv eid false
                  ("Instance creation failed: "
                    ++ ("Could not find a " ++ flavourToString env.flavour
                      ++ " server.jar for version " ++ env.version))),
                TAct.removeDirAll removeDirOk]
            ++ (if removeDirOk then []
                else [TAct.panicked
                  ("Failed to remove directory after instance creation failed")])) ∧
    (mcInstanceNew eid env).2
      = Except.error ("Could not find a " ++ flavourToString env.flavour
          ++ " server.jar for version " ++ env.version) ∧
    dirExistsAfter eid env removeDirOk = !removeDirOk ∧
    configFileRemains eid env removeDirOk = !removeDirOk := by
  have hnew := mcInstanceNew_step3_failure eid env u h1 hu h3 h4 h5 hj
  refine ⟨?_, ?_, ?_, ?_⟩
  · unfold createTask
    rw [hnew]
    simp
  · rw [hnew]
  · unfold dirExistsAfter
    rw [hnew]
  · unfold configFileRemains
    rw [hnew]

/-- Claim C1, witness for the amended theorem at a concrete environment with
the rollback removal failing. -/
theorem provisioning_step3_rollback_witness :
    ((⟨Flavour.vanilla, "1.20.1", 25565, true, some ("jre-url", 17), true, [],
        true, 1, true, none, [], true, true, true, true⟩ : NewEnv).createFilesOk = true ∧
      (⟨Flavour.vanilla, "1.20.1", 25565, true, some ("jre-url", 17), true, [],
        true, 1, true, none, [], true, true, true, true⟩ : NewEnv).jreUrl
        = some ("jre-url", 17) ∧
      (⟨Flavour.vanilla, "1.20.1", 25565, true, some ("jre-url", 17), true, [],
        true, 1, true, none, [], true, true, true, true⟩ : NewEnv).jarUrl = none) ∧
    (createTask 8 "uuid-3"
        ⟨Flavour.vanilla, "1.20.1", 25565, true, some ("jre-url", 17), true, [],
         true, 1, true, none, [], true, true, true, true⟩ false
      = TAct.emit (CEvent.start 8 10)
          :: ((mcInstanceNew 8
                ⟨Flavour.vanilla, "1.20.1", 25565, true, some ("jre-url", 17), true, [],
                 true, 1, true, none, [], true, true, true, true⟩).1.map TAct.emit
            ++ [TAct.emit (CEvent.endEv 8 false
                  ("Instance creation failed: "
                    ++ ("Could not find a "
                      ++ flavourToString (⟨Flavour.vanilla, "1.20.1", 25565, true,
                          some ("jre-url", 17), true, [], true, 1, true, none, [],
                          true, true, true, true⟩ : NewEnv).flavour
                      ++ " server.jar for version "
                      ++ (⟨Flavour.vanilla, "1.20.1", 25565, true, some ("jre-url", 17),
                          true, [], true, 1, true, none, [], true, true, true,
                          true⟩ : NewEnv).version))),
                TAct.removeDirAll false]
            ++ (if (false : Bool) then []
                else [TAct.panicked
                  ("Failed to remove directory after instance creation failed")]))) :=
  ⟨⟨rfl, rfl, rfl⟩,
   (provisioning_step3_rollback 8 "uuid-3"
      ⟨Flavour.vanilla, "1.20.1", 25565, true, some ("jre-url", 17), true, [],
       true, 1, true, none, [], true, true, true, true⟩ false ("jre-url", 17)
      rfl rfl rfl rfl rfl rfl).1⟩

/-- Every event emitted by a successful Vanilla run of
MinecraftInstance::new is a ProgressionUpdate carrying the shared event id
and a non-negative progress increment. -/
theorem vanilla_success_events_shape (eid : Nat) (env : NewEnv) :
    ∀ e ∈ ([CEvent.update eid 1 "1/4: Creating directories"]
        ++ (if env.jreCached then [CEvent.update eid 4 "2/4: JRE already downloaded"]
            else jreChunkEvents eid env.jreChunks)
        ++ jarChunkEvents eid (flavourToString env.flavour) "server.jar" env.jarChunks
        ++ [CEvent.update eid 1 "4/4: Finishing up"]),
      ∃ p m, e = CEvent.update eid p m ∧ 0 ≤ p := by
  intro e he
  simp only [List.mem_append, List.mem_singleton] at he
  rcases he with ((h | h) | h) | h
  · exact ⟨1, _, h, by norm_num⟩
  · by_cases hc : env.jreCached
    · rw [if_pos hc] at h
      simp only [List.mem_singleton] at h
      exact ⟨4, _, h, by norm_num⟩
    · rw [if_neg hc] at h
      exact jreChunkEvents_shape eid env.jreChunks e h
  · exact jarChunkEvents_shape eid (flavourToString env.flavour) "server.jar"
      env.jarChunks e h
  · exact ⟨1, _, h, by norm_num⟩

/-- Claim C8, counterexample.  The progress values of the update events are
step-local increments, not cumulative positions: a Vanilla creation with a
cached JRE and a single-chunk jar download of known size publishes updates
with progress values 1, 4, 3, 1, which are not (strictly) non-decreasing. -/
theorem progression_not_monotone_counterexample :
    updateProgresses (actEvents (createTask 9 "uuid-2"
        ⟨Flavour.vanilla, "1.20.1", 25565, true, some ("jre-url", 17), true, [],
         true, 1, true, some ("jar-url", Flavour.vanilla), [⟨5, 5, some 5⟩],
         true, true, true, true⟩ true))
      = [1, 4, 3, 1] ∧
    nondecList [1, 4, 3, 1] = false := by
  constructor
  · norm_num [createTask, mcInstanceNew, mcNewFinish, jreChunkEvents, jarChunkEvents,
      actEvents, updateProgresses, formatByteDownload, formatByte, flavourToString]
    decide
  · decide

/-- Claim C8, amended.  A Vanilla creation whose provisioning succeeds
publishes, all under one event id: exactly one ProgressionStart, first, with
total 10; zero or more ProgressionUpdate events, each carrying a non-negative
step-local progress increment (the progress values are increments, not
cumulative, so they need not be non-decreasing, while the accumulated
progress is); and exactly one ProgressionEnd, last, with success true; the
instance is then registered with lifecycle state Stopped. -/
theorem vanilla_creation_progression (eid : Nat) (uuid : String) (env : NewEnv)
    (removeDirOk : Bool) (u : String × Nat) (s : String)
    (h1 : env.createFilesOk = true) (hu : env.jreUrl = some u)
    (h3 : env.jreDownloadOk = true) (h4 : env.unzippedCount = 1)
    (h5 : env.jreInstallOk = true) (hj : env.jarUrl = some (s, Flavour.vanilla))
    (h6 : env.jarDownloadOk = true) (h7 : env.writeConfigOk = true) :
    (actEvents (createTask eid uuid env removeDirOk)).countP isStartEv = 1 ∧
    (actEvents (createTask eid uuid env removeDirOk)).head?
      = some (CEvent.start eid 10) ∧
    (actEvents (createTask eid uuid env removeDirOk)).countP isEndEv = 1 ∧
    (actEvents (createTask eid uuid env removeDirOk)).getLast?
      = some (CEvent.endEv eid true ("Instance creation success")) ∧
    (∀ e ∈ actEvents (createTask eid uuid env removeDirOk), eventId e = eid) ∧
    (∀ p ∈ updateProgresses (actEvents (createTask eid uuid env removeDirOk)),
      0 ≤ p) ∧
    TAct.register uuid LState.stopped ∈ createTask eid uuid env removeDirOk := by
  have hnew := mcInstanceNew_vanilla_success eid env u s h1 hu h3 h4 h5 hj h6 h7
  have hshape := vanilla_success_events_shape eid env
  set evl := [CEvent.update eid 1 "1/4: Creating directories"]
      ++ (if env.jreCached then [CEvent.update eid 4 "2/4: JRE already downloaded"]
          else jreChunkEvents eid env.jreChunks)
      ++ jarChunkEvents eid (flavourToString env.flavour) "server.jar" env.jarChunks
      ++ [CEvent.update eid 1 "4/4: Finishing up"] with hevl
  have htr : createTask eid uuid env removeDirOk
      = TAct.emit (CEvent.start eid 10)
          :: (evl.map TAct.emit
            ++ [TAct.emit (CEvent.endEv eid true ("Instance creation success")),
                TAct.addPort env.port, TAct.register uuid LState.stopped]) := by
    unfold createTask
    rw [hnew]
    rfl
  have hae : actEvents (createTask eid uuid env removeDirOk)
      = CEvent.start eid 10 :: (evl ++ [CEvent.endEv eid true ("Instance creation success")]) := by
    rw [htr]
    unfold actEvents
    rw [List.filterMap_cons]
    simp only []
    rw [List.filterMap_append]
    have h2 : actEvents (evl.map TAct.emit) = evl := actEvents_map_emit evl
    unfold actEvents at h2
    rw [h2]
    rfl
  have hstart : ∀ e ∈ evl, isStartEv e = false := by
    intro e he
    obtain ⟨p, m, hep, _⟩ := hshape e he
    rw [hep]
    rfl
  have hend : ∀ e ∈ evl, isEndEv e = false := by
    intro e he
    obtain ⟨p, m, hep, _⟩ := hshape e he
    rw [hep]
    rfl
  refine ⟨?_, ?_, ?_, ?_, ?_, ?_, ?_⟩
  · rw [hae, List.countP_cons, List.countP_append]
    have hz : evl.countP isStartEv = 0 := List.countP_eq_zero.mpr (by
      intro e he
      rw [hstart e he]
      exact Bool.false_ne_true)
    rw [hz]
    rfl
  · rw [hae]
    rfl
  · rw [hae, List.countP_cons, List.countP_append]
    have hz : evl.countP isEndEv = 0 := List.countP_eq_zero.mpr (by
      intro e he
      rw [hend e he]
      exact Bool.false_ne_true)
    rw [hz]
    rfl
  · rw [hae, ← List.cons_append]
    exact List.getLast?_concat _
  · rw [hae]
    intro e he
    rcases List.mem_cons.mp he with h | h
    · rw [h]; rfl
    · rcases List.mem_append.mp h with h2 | h2
      · obtain ⟨p, m, hep, _⟩ := hshape e h2
        rw [hep]
        rfl
      · rw [List.mem_singleton.mp h2]
        rfl
  · rw [hae]
    intro p hp
    unfold updateProgresses at hp
    rw [List.mem_filterMap] at hp
    obtain ⟨e, he, hpe⟩ := hp
    rcases List.mem_cons.mp he with h | h
    · rw [h] at hpe
      exact absurd hpe (by simp)
    · rcases List.mem_append.mp h with h2 | h2
      · obtain ⟨q, m, hep, hq⟩ := hshape e h2
        rw [hep] at hpe
        simp only [Option.some_inj] at hpe
        rw [← hpe]
        exact hq
      · rw [List.mem_singleton.mp h2] at hpe
        exact absurd hpe (by simp)
  · rw [htr]
    simp

/-- Claim C8, witness for the amended theorem at a concrete environment. -/
theorem vanilla_creation_progression_witness :
    ((⟨Flavour.vanilla, "1.20.1", 25565, true, some ("jre-url", 17), true, [],
        true, 1, true, some ("jar-url", Flavour.vanilla), [⟨5, 5, some 5⟩],
        true, true, true, true⟩ : NewEnv).createFilesOk = true ∧
      (⟨Flavour.vanilla, "1.20.1", 25565, true, some ("jre-url", 17), true, [],
        true, 1, true, some ("jar-url", Flavour.vanilla), [⟨5, 5, some 5⟩],
        true, true, true, true⟩ : NewEnv).jarUrl
        = some ("jar-url", Flavour.vanilla)) ∧
    ((actEvents (createTask 11 "uuid-4"
        ⟨Flavour.vanilla, "1.20.1", 25565, true, some ("jre-url", 17), true, [],
         true, 1, true, some ("jar-url", Flavour.vanilla), [⟨5, 5, some 5⟩],
         true, true, true, true⟩ true)).countP isStartEv = 1 ∧
      (actEvents (createTask 11 "uuid-4"
        ⟨Flavour.vanilla, "1.20.1", 25565, true, some ("jre-url", 17), true, [],
         true, 1, true, some ("jar-url", Flavour.vanilla), [⟨5, 5, some 5⟩],
         true, true, true, true⟩ true)).head? = some (CEvent.start 11 10)) ∧
    TAct.register "uuid-4" LState.stopped
      ∈ createTask 11 "uuid-4"
          ⟨Flavour.vanilla, "1.20.1", 25565, true, some ("jre-url", 17), true, [],
           true, 1, true, some ("jar-url", Flavour.vanilla), [⟨5, 5, some 5⟩],
           true, true, true, true⟩ true := by
  have h := vanilla_creation_progression 11 "uuid-4"
    ⟨Flavour.vanilla, "1.20.1", 25565, true, some ("jre-url", 17), true, [],
     true, 1, true, some ("jar-url", Flavour.vanilla), [⟨5, 5, some 5⟩],
     true, true, true, true⟩ true ("jre-url", 17) "jar-url"
    rfl rfl rfl rfl rfl rfl rfl rfl
  exact ⟨⟨rfl, rfl⟩, ⟨h.1, h.2.1⟩, h.2.2.2.2.2.2⟩

end Lodestone
